import Mathlib

/-! Shallow embedding of the storefront presentation logic in
`src/components/Home.tsx` and `src/components/ProductCard.tsx`.

Products are rows joined with their category name; prices are modelled
as rationals (the source works with JS numbers and only ever adds,
subtracts, divides, takes `%`, `Math.round` and `Math.floor` on them).
-/

namespace NaxStore

/-- A product row as consumed by the components: `select("*, categories(name)")`.
`categories` is the name of the joined category record, absent when the join
produced nothing (`product.categories?.name`). -/
structure Product where
  id : String
  name : String
  price : ℚ
  original_price : Option ℚ
  image_url : Option String
  categories : Option String
  deriving Repr, DecidableEq

/-! Home.tsx: category filtering (`filteredProducts`, lines 203–207) -/

/-- From `Home.tsx` lines 203–207:
```
if (!products) return [];
if (activeCategory === "All") return products;
return products.filter(product => product.categories?.name === activeCategory);
```
`products` is `undefined` until the query resolves, hence the `Option`. -/
def filteredProducts (products : Option (List Product)) (activeCategory : String) :
    List Product :=
  match products with
  | none => []
  | some ps =>
    if activeCategory = "All" then ps
    else ps.filter (fun product => product.categories == some activeCategory)

/-! Home.tsx: render states (`renderProductGrid`, lines 209–233;
`ProductGridSkeleton`, lines 152–165; `CategoriesNav`, lines 112–150) -/

/-- The four shapes the grid area can render as.  `skeletons n` carries the
number of placeholder cards, `error m` the single message paragraph,
`empty` the "No products found in this category." paragraph, `grid ps`
the card grid over the filtered list. -/
inductive GridView where
  | skeletons (n : ℕ)
  | error (msg : String)
  | empty
  | grid (ps : List Product)
  deriving Repr, DecidableEq

/-- From `Home.tsx` lines 209–233.  `ProductGridSkeleton` (lines 152–165) renders
`Array.from({ length: 8 })` placeholder cards, hence `skeletons 8`. -/
def renderProductGrid (isLoadingProducts : Bool)
    (productsError categoriesError : Option String)
    (filtered : List Product) : GridView :=
  if isLoadingProducts then .skeletons 8
  else
    match productsError with
    | some m => .error m
    | none =>
      match categoriesError with
      | some m => .error m
      | none =>
        if filtered.length = 0 then .empty else .grid filtered

/-- What the category navigation renders: placeholder pills while loading,
otherwise one button per category name. -/
inductive NavView where
  | skeletons (n : ℕ)
  | buttons (names : List String)
  deriving Repr, DecidableEq

/-- From `Home.tsx` lines 112–150: `CategoriesNav` renders
`Array.from({ length: 6 })` pills while loading, otherwise the synthetic
`All` pseudo-category followed by the fetched category names. -/
def categoriesNav (categoryNames : List String) (isLoading : Bool) : NavView :=
  if isLoading then .skeletons 6
  else .buttons ("All" :: categoryNames)

/-! ProductCard.tsx: add-to-cart button (lines 77–92 and 139–150) -/

/-- The four contents `renderButtonContent` can return. -/
inductive ButtonContent where
  | spinner
  | added
  | inCart
  | addToCart
  deriving Repr, DecidableEq

/-- From `ProductCard.tsx` lines 77–92. -/
def renderButtonContent (isPending justAdded alreadyInCart : Bool) : ButtonContent :=
  if isPending then .spinner
  else if justAdded then .added
  else if alreadyInCart then .inCart
  else .addToCart

/-- From `ProductCard.tsx` line 141: `disabled={addToCartMutation.isPending || alreadyInCart}`. -/
def addToCartDisabled (isPending alreadyInCart : Bool) : Bool :=
  isPending || alreadyInCart

/-! ProductCard.tsx: wishlist toggle (`handleToggleWishlist`, lines 50–58) -/

/-- The mutation (if any) a wishlist toggle dispatches. -/
inductive WishlistAction where
  | noop
  | removeMutation (productId : String)
  | addMutation (productId : String)
  deriving Repr, DecidableEq

/-- From `ProductCard.tsx` lines 50–58: no mutation without a session, otherwise
remove when wishlisted, add when not, always keyed by the product id. -/
def handleToggleWishlist (hasSession : Bool) (isWishlisted : Bool)
    (productId : String) : WishlistAction :=
  if !hasSession then .noop
  else if isWishlisted then .removeMutation productId
  else .addMutation productId

/-- From `ProductCard.tsx` line 34: membership of the product id in the wishlist
(`wishlist?.some(item => item.product_id === product.id) ?? false`). -/
def isWishlisted (wishlist : Option (List String)) (productId : String) : Bool :=
  match wishlist with
  | none => false
  | some items => items.any (fun item => item == productId)

/-! ProductCard.tsx: discount (lines 44–48, 115–119, 131–136)

`hasDiscount = product.original_price && product.original_price > product.price`
is used only in truthiness positions (`hasDiscount ? … : 0`,
`{hasDiscount && <badge/>}`), so it is modelled as the `Bool` it tests as:
JS `x && y` is falsy when `x` is `undefined`/`null` or the number `0`. -/

/-- From `ProductCard.tsx` line 45, as a truthiness test: false when
`original_price` is absent or `0` (both falsy), otherwise the comparison. -/
def hasDiscount (p : Product) : Bool :=
  match p.original_price with
  | none => false
  | some op => if op = 0 then false else decide (p.price < op)

/-- From `ProductCard.tsx` lines 46–48:
`Math.round(((original_price - price) / original_price) * 100)` when the
discount is shown, else `0`.  JS `Math.round x = ⌊x + 1/2⌋`, which is
the Mathlib `round` on ℚ. -/
def discountPercentage (p : Product) : ℤ :=
  if hasDiscount p then
    match p.original_price with
    | some op => round ((op - p.price) / op * 100)
    | none => 0
  else 0

/-- From `ProductCard.tsx` lines 115–119: the `{discountPercentage}% OFF` badge is
in the tree exactly when `hasDiscount` is truthy. -/
def discountBadge (p : Product) : Option ℤ :=
  if hasDiscount p then some (discountPercentage p) else none

/-- From `ProductCard.tsx` lines 133–135: the struck-through original price is in
the tree exactly when `hasDiscount` is truthy. -/
def struckOriginalPrice (p : Product) : Option ℚ :=
  if hasDiscount p then p.original_price else none

/-! ProductCard.tsx: simulated rating (lines 37–42)

```
const seed = (product.id.charCodeAt(0) || 1) + (product.price || 1);
const rating = 4.0 + (seed % 10) / 10;
const reviewCount = Math.floor((seed * 3) % 100) + 5;
```
JS `%` on numbers is the remainder of division truncated toward zero
(`a % b = a - b * trunc(a / b)`), and `charCodeAt(0)` is the first UTF-16
code unit (`NaN` for the empty string; `|| 1` turns `NaN` and `0` into `1`). -/

/-- The first UTF-16 code unit of a character: its code point
when it lies in the basic multilingual plane, otherwise its high surrogate. -/
def utf16FirstCodeUnit (c : Char) : ℕ :=
  if c.toNat < 65536 then c.toNat else 55296 + (c.toNat - 65536) / 1024

/-- JS `product.id.charCodeAt(0) || 1`: `1` for the empty id (`charCodeAt`
yields `NaN`) and for a leading NUL (code unit `0` is falsy). -/
def charCode0 (id : String) : ℕ :=
  match id.data with
  | [] => 1
  | c :: _ =>
    let u := utf16FirstCodeUnit c
    if u = 0 then 1 else u

/-- JS `product.price || 1`: the number `0` is falsy. -/
def priceOr1 (price : ℚ) : ℚ :=
  if price = 0 then 1 else price

/-- From `ProductCard.tsx` line 38. -/
def ratingSeed (id : String) (price : ℚ) : ℚ :=
  (charCode0 id : ℚ) + priceOr1 price

/-- Truncation toward zero, as JS `%` divides. -/
def jsTrunc (q : ℚ) : ℤ :=
  if 0 ≤ q then ⌊q⌋ else -⌊-q⌋

/-- JS remainder `a % b = a - b * trunc(a / b)` (sign follows the dividend). -/
def jsMod (a b : ℚ) : ℚ :=
  a - b * jsTrunc (a / b)

/-- From `ProductCard.tsx` line 39: `4.0 + (seed % 10) / 10`. -/
def rating (id : String) (price : ℚ) : ℚ :=
  4 + jsMod (ratingSeed id price) 10 / 10

/-- From `ProductCard.tsx` line 40: `Math.floor((seed * 3) % 100) + 5`. -/
def reviewCount (id : String) (price : ℚ) : ℤ :=
  ⌊jsMod (ratingSeed id price * 3) 100⌋ + 5

/-! ProductCard.tsx: the 2-second "just added" window (lines 60–68)

```
addToCartMutation.mutate(product.id, {
  onSuccess: () => {
    setJustAdded(true);
    setTimeout(() => setJustAdded(false), 2000);
  }
});
```
The success handler schedules a fresh timeout and never stores or clears a
handle, so every success appends a pending timer; each timer, when it
fires, unconditionally sets the flag back to false.  The state machine
below records the flag and the multiset of scheduled fire times (ms). -/

/-- Transient per-card timer state: the `justAdded` flag and the fire times
of all `setTimeout` callbacks scheduled and not yet fired. -/
structure CardTimerState where
  justAdded : Bool
  pendingTimers : List ℕ
  deriving Repr, DecidableEq

/-- Events visible to the timer logic of the card: a successful add-to-cart
completing at time `t`, or the timeout scheduled for time `t` firing. -/
inductive CardEvent where
  | success (t : ℕ)
  | fire (t : ℕ)
  deriving Repr, DecidableEq

/-- One step of the timer logic of the card, from `ProductCard.tsx` lines 63–66:
on success, set the flag and schedule a timeout for `t + 2000` without
cancelling any earlier one; when a scheduled timeout fires, clear the flag. -/
def stepCard (s : CardTimerState) : CardEvent → CardTimerState
  | .success t =>
    { justAdded := true, pendingTimers := s.pendingTimers ++ [t + 2000] }
  | .fire t =>
    if t ∈ s.pendingTimers then
      { justAdded := false, pendingTimers := s.pendingTimers.erase t }
    else s

/-- Run the card from its initial state (`useState(false)`, no timer). -/
def runCard (events : List CardEvent) : CardTimerState :=
  events.foldl stepCard { justAdded := false, pendingTimers := [] }

/-! Arithmetic facts about the JS remainder, shared by the rating and
review-count theorems. -/

theorem jsTrunc_of_nonneg {q : ℚ} (h : 0 ≤ q) : jsTrunc q = ⌊q⌋ := by
  simp [jsTrunc, h]

theorem jsMod_eq_fract_mul {a b : ℚ} (ha : 0 ≤ a) (hb : 0 < b) :
    jsMod a b = b * Int.fract (a / b) := by
  have hq : (0 : ℚ) ≤ a / b := div_nonneg ha hb.le
  rw [jsMod, jsTrunc_of_nonneg hq, Int.fract]
  field_simp

theorem jsMod_nonneg {a b : ℚ} (ha : 0 ≤ a) (hb : 0 < b) : 0 ≤ jsMod a b := by
  rw [jsMod_eq_fract_mul ha hb]
  exact mul_nonneg hb.le (Int.fract_nonneg _)

theorem jsMod_lt {a b : ℚ} (ha : 0 ≤ a) (hb : 0 < b) : jsMod a b < b := by
  rw [jsMod_eq_fract_mul ha hb]
  calc b * Int.fract (a / b) < b * 1 :=
        mul_lt_mul_of_pos_left (Int.fract_lt_one _) hb
    _ = b := mul_one b

theorem one_le_charCode0 (id : String) : 1 ≤ charCode0 id := by
  unfold charCode0
  cases h : id.data with
  | nil => simp
  | cons c cs =>
    simp only
    split <;> omega

theorem priceOr1_pos {price : ℚ} (h : 0 ≤ price) : 0 < priceOr1 price := by
  rcases eq_or_lt_of_le h with h0 | h0
  · rw [priceOr1, if_pos h0.symm]
    norm_num
  · rw [priceOr1, if_neg (ne_of_gt h0)]
    exact h0

theorem ratingSeed_pos (id : String) {price : ℚ} (h : 0 ≤ price) :
    0 < ratingSeed id price := by
  have h1 : (1 : ℚ) ≤ (charCode0 id : ℚ) := by exact_mod_cast one_le_charCode0 id
  have h2 := priceOr1_pos h
  rw [ratingSeed]
  linarith

/-- C3: the success handler never clears the previous timeout, so two
successful add-to-carts at t = 0 ms and t = 1000 ms leave two pending revert
timers, and the first timer firing at t = 2000 ms reverts the flag only
1000 ms after the last success — the 2-second window does not restart. -/
theorem justAdded_reverts_early :
    (runCard [.success 0, .success 1000]).pendingTimers = [2000, 3000] ∧
    (runCard [.success 0, .success 1000, .fire 2000]).justAdded = false ∧
    2000 < 1000 + 2000 :=
  ⟨rfl, rfl, by norm_num⟩

/-- C4: the add-to-cart button is disabled exactly when the mutation is
pending or the product is already in the cart, and its content follows the
priority order pending spinner, then "Added", then "In Cart", then
"Add to Cart". -/
theorem addToCartButton_spec :
    ∀ isPending justAdded alreadyInCart : Bool,
      (addToCartDisabled isPending alreadyInCart = true ↔
        isPending = true ∨ alreadyInCart = true) ∧
      renderButtonContent true justAdded alreadyInCart = .spinner ∧
      renderButtonContent false true alreadyInCart = .added ∧
      renderButtonContent false false true = .inCart ∧
      renderButtonContent false false false = .addToCart := by
  decide

/-- C5: while the catalog loads, the grid area renders exactly 8 product
skeletons (and the nav 6 category skeletons); when the catalog load failed it
renders the single error message and nothing else; when loaded it renders the
grid of the filtered list, or the empty-category message when that list is
empty. -/
theorem renderStates_spec (pe ce : Option String) (fp : List Product)
    (cats : List String) (m : String) :
    renderProductGrid true pe ce fp = .skeletons 8 ∧
    categoriesNav cats true = .skeletons 6 ∧
    renderProductGrid false (some m) ce fp = .error m ∧
    renderProductGrid false none none fp =
      (if fp.length = 0 then .empty else .grid fp) :=
  ⟨rfl, rfl, rfl, rfl⟩

/-- C6: the wishlist toggle dispatches no mutation without a session; with a
session it dispatches the remove-mutation for the product id when the product
is wishlisted and the add-mutation for the product id otherwise. -/
theorem toggleWishlist_spec (pid : String) :
    (∀ wishlisted : Bool, handleToggleWishlist false wishlisted pid = .noop) ∧
    handleToggleWishlist true true pid = .removeMutation pid ∧
    handleToggleWishlist true false pid = .addMutation pid :=
  ⟨fun _ => rfl, rfl, rfl⟩

/-- C7: the derived rating and review count agree on any two products with
the same id and the same price. -/
theorem derivedRating_deterministic (p q : Product)
    (hid : p.id = q.id) (hprice : p.price = q.price) :
    rating p.id p.price = rating q.id q.price ∧
    reviewCount p.id p.price = reviewCount q.id q.price := by
  rw [hid, hprice]
  exact ⟨rfl, rfl⟩

theorem derivedRating_deterministic_witness :
    rating (Product.mk "p1" "a" 100 none none none).id
        (Product.mk "p1" "a" 100 none none none).price =
      rating (Product.mk "p1" "b" 100 (some 120) none (some "Shoes")).id
        (Product.mk "p1" "b" 100 (some 120) none (some "Shoes")).price ∧
    reviewCount (Product.mk "p1" "a" 100 none none none).id
        (Product.mk "p1" "a" 100 none none none).price =
      reviewCount (Product.mk "p1" "b" 100 (some 120) none (some "Shoes")).id
        (Product.mk "p1" "b" 100 (some 120) none (some "Shoes")).price :=
  derivedRating_deterministic
    (Product.mk "p1" "a" 100 none none none)
    (Product.mk "p1" "b" 100 (some 120) none (some "Shoes")) rfl rfl

/-- C9: the rating derivation reads the id only through its first character
(two ids with the same head give the same rating and review count at equal
price, whatever their tails), and the empty id falls back to code unit 1. -/
theorem rating_depends_on_first_char (c : Char) (s t : List Char) (price : ℚ) :
    (rating (String.mk (c :: s)) price = rating (String.mk (c :: t)) price ∧
      reviewCount (String.mk (c :: s)) price =
        reviewCount (String.mk (c :: t)) price) ∧
    charCode0 "" = 1 :=
  ⟨⟨rfl, rfl⟩, rfl⟩

/-- C8 counterexample: the product with id "A" and price −70 has seed
65 − 70 = −5, and the JS remainder keeps the sign of the dividend, so the
rating is 4 + (−5)/10 = 3.5, outside [4.0, 5.0). -/
theorem rating_out_of_range_counterexample :
    ¬ (4 ≤ rating "A" (-70) ∧ rating "A" (-70) < 5) := by
  have h : charCode0 "A" = 65 := by decide
  have hr : rating "A" (-70) = 7 / 2 := by
    rw [rating, ratingSeed, h, priceOr1, jsMod, jsTrunc]
    norm_num
  rw [hr]
  norm_num

/-- C8 (amended): for every product with a nonnegative price, the derived
rating lies in the half-open interval [4.0, 5.0). -/
theorem rating_range_of_nonneg_price (id : String) (price : ℚ)
    (h : 0 ≤ price) : 4 ≤ rating id price ∧ rating id price < 5 := by
  have hs := (ratingSeed_pos id h).le
  have h0 := jsMod_nonneg hs (by norm_num : (0 : ℚ) < 10)
  have h1 := jsMod_lt hs (by norm_num : (0 : ℚ) < 10)
  rw [rating]
  constructor <;> linarith

theorem rating_range_witness :
    4 ≤ rating "p1" 100 ∧ rating "p1" 100 < 5 :=
  rating_range_of_nonneg_price "p1" 100 (by norm_num)

/-- C10: for every product whose price is a nonnegative integer, the derived
review count is between 5 and 104 inclusive. -/
theorem reviewCount_bounds (id : String) (price : ℚ)
    (h : ∃ n : ℕ, price = (n : ℚ)) :
    5 ≤ reviewCount id price ∧ reviewCount id price ≤ 104 := by
  obtain ⟨n, rfl⟩ := h
  have hpos : 0 < ratingSeed id (n : ℚ) := ratingSeed_pos id (by positivity)
  have hs : (0 : ℚ) ≤ ratingSeed id (n : ℚ) * 3 := by linarith
  have h0 := jsMod_nonneg hs (by norm_num : (0 : ℚ) < 100)
  have h1 := jsMod_lt hs (by norm_num : (0 : ℚ) < 100)
  rw [reviewCount]
  have hf0 : 0 ≤ ⌊jsMod (ratingSeed id (n : ℚ) * 3) 100⌋ := Int.floor_nonneg.mpr h0
  have hf1 : ⌊jsMod (ratingSeed id (n : ℚ) * 3) 100⌋ < 100 := by
    rw [Int.floor_lt]
    exact_mod_cast h1
  omega

theorem reviewCount_bounds_witness :
    5 ≤ reviewCount "p2" 80 ∧ reviewCount "p2" 80 ≤ 104 :=
  reviewCount_bounds "p2" 80 ⟨80, by norm_num⟩

/-- C1: for a selected category other than the sentinel, the derived list is
exactly the filter of the loaded list by string equality of the joined
category name (hence an order-preserving sublist), and selecting "All"
returns the loaded list itself, unmodified. -/
theorem filteredProducts_spec (ps : List Product) (cat : String)
    (hcat : cat ≠ "All") :
    filteredProducts (some ps) cat =
      ps.filter (fun p => decide (p.categories = some cat)) ∧
    (filteredProducts (some ps) cat).Sublist ps ∧
    filteredProducts (some ps) "All" = ps := by
  have hfilter : filteredProducts (some ps) cat =
      ps.filter (fun p => decide (p.categories = some cat)) := by
    simp only [filteredProducts, if_neg hcat]
    apply List.filter_congr
    intro p _
    cases h : p.categories == some cat
    · simp [ne_of_beq_false h]
    · simp [eq_of_beq h]
  refine ⟨hfilter, ?_, by simp [filteredProducts]⟩
  rw [hfilter]
  exact List.filter_sublist ps

theorem filteredProducts_spec_witness :
    filteredProducts
        (some [Product.mk "p1" "Sneaker" 50 none none (some "Shoes"),
               Product.mk "p2" "Tote" 80 none none (some "Bags")]) "Shoes" =
      List.filter (fun p => decide (p.categories = some "Shoes"))
        [Product.mk "p1" "Sneaker" 50 none none (some "Shoes"),
         Product.mk "p2" "Tote" 80 none none (some "Bags")] ∧
    (filteredProducts
        (some [Product.mk "p1" "Sneaker" 50 none none (some "Shoes"),
               Product.mk "p2" "Tote" 80 none none (some "Bags")])
        "Shoes").Sublist
      [Product.mk "p1" "Sneaker" 50 none none (some "Shoes"),
       Product.mk "p2" "Tote" 80 none none (some "Bags")] ∧
    filteredProducts
        (some [Product.mk "p1" "Sneaker" 50 none none (some "Shoes"),
               Product.mk "p2" "Tote" 80 none none (some "Bags")]) "All" =
      [Product.mk "p1" "Sneaker" 50 none none (some "Shoes"),
       Product.mk "p2" "Tote" 80 none none (some "Bags")] :=
  filteredProducts_spec
    [Product.mk "p1" "Sneaker" 50 none none (some "Shoes"),
     Product.mk "p2" "Tote" 80 none none (some "Bags")] "Shoes" (by decide)

/-- C2: for a product with a nonnegative (valid) price, `hasDiscount` holds
exactly when an original price strictly above the price is present; when it
holds, the percentage is the rounded drop and lies in [0, 100], and the badge
and struck-through original price render; when it does not hold, the
percentage is 0 and neither renders. -/
theorem discount_spec (p : Product) (op : ℚ) (hp : 0 ≤ p.price) :
    (hasDiscount p = true ↔ ∃ q, p.original_price = some q ∧ p.price < q) ∧
    (hasDiscount p = false → discountPercentage p = 0 ∧
      discountBadge p = none ∧ struckOriginalPrice p = none) ∧
    (p.original_price = some op → hasDiscount p = true →
      discountPercentage p = round ((op - p.price) / op * 100) ∧
      0 ≤ discountPercentage p ∧ discountPercentage p ≤ 100 ∧
      discountBadge p = some (discountPercentage p) ∧
      struckOriginalPrice p = some op) := by
  refine ⟨?_, ?_, ?_⟩
  · cases hop : p.original_price with
    | none => simp [hasDiscount, hop]
    | some q =>
      rcases eq_or_ne q 0 with h0 | h0
      · subst h0
        simp [hasDiscount, hop, hp.not_lt]
      · simp [hasDiscount, hop, h0]
  · intro hfalse
    refine ⟨?_, ?_, ?_⟩ <;>
      simp [discountPercentage, discountBadge, struckOriginalPrice, hfalse]
  · intro hop htrue
    have hlt : p.price < op := by
      rcases eq_or_ne op 0 with h0 | h0
      · subst h0
        simp [hasDiscount, hop] at htrue
      · simpa [hasDiscount, hop, h0] using htrue
    have hop_pos : 0 < op := lt_of_le_of_lt hp hlt
    have hval : discountPercentage p = round ((op - p.price) / op * 100) := by
      simp [discountPercentage, htrue, hop]
    have hx1 : (op - p.price) / op * 100 ≤ 100 := by
      have h2 : (op - p.price) / op ≤ 1 := by
        rw [div_le_one hop_pos]
        linarith
      have := mul_le_mul_of_nonneg_right h2 (by norm_num : (0 : ℚ) ≤ 100)
      linarith
    have hx0 : 0 < (op - p.price) / op * 100 :=
      mul_pos (div_pos (by linarith) hop_pos) (by norm_num)
    have hround0 : 0 ≤ round ((op - p.price) / op * 100) := by
      rw [round_eq]
      apply Int.floor_nonneg.mpr
      linarith
    have hround1 : round ((op - p.price) / op * 100) ≤ 100 := by
      rw [round_eq]
      have hfl : ⌊(op - p.price) / op * 100 + 1 / 2⌋ < 101 := by
        rw [Int.floor_lt]
        push_cast
        linarith
      omega
    refine ⟨hval, ?_, ?_, ?_, ?_⟩
    · rw [hval]
      exact hround0
    · rw [hval]
      exact hround1
    · simp [discountBadge, htrue]
    · simp [struckOriginalPrice, htrue, hop]

/-- C2 witness: the two scenario products from the spec — price 80 against
original 100 gives a shown 20% discount, price 100 against original 100
gives none. -/
theorem discount_spec_witness :
    hasDiscount (Product.mk "p2" "x" 80 (some 100) none none) = true ∧
    discountPercentage (Product.mk "p2" "x" 80 (some 100) none none) = 20 ∧
    hasDiscount (Product.mk "p1" "y" 100 (some 100) none none) = false := by
  have h2 := discount_spec (Product.mk "p2" "x" 80 (some 100) none none) 100
    (by norm_num)
  have htrue : hasDiscount (Product.mk "p2" "x" 80 (some 100) none none) = true :=
    h2.1.mpr ⟨100, rfl, by norm_num⟩
  have hval := (h2.2.2 rfl htrue).1
  refine ⟨htrue, ?_, ?_⟩
  · rw [hval, round_eq]
    norm_num
  · norm_num [hasDiscount]

end NaxStore
